import Mathlib

/-!
# Verification of the zap-shift-server payment reconciliation workflow

Shallow embedding of `src/index.js` (Express + MongoDB + Stripe backend).
The document store is modelled as in-memory lists (insertion order = store
order); `findOne` is `List.find?` (first match) and `updateOne` updates the
first matching document, mirroring MongoDB's semantics on the operations the
code uses.  External adapters (Stripe session retrieval, Firebase token
verification) are modelled by passing their results as explicit values;
amounts are rationals (JS numbers behave exactly on the values involved).
-/

namespace ZapShift

/-- A parcel document, as created by `POST /parcels` and mutated by the
`PATCH /payments` handler (`paymentStatus`, `trackingId`).  `_id` is the
Mongo ObjectId rendered as its hex string. -/
structure Parcel where
  _id : String
  parcelName : String
  senderEmail : String
  charge : ℚ
  paymentStatus : String
  trackingId : Option String
  deriving DecidableEq, Repr

/-- A payment document, exactly the fields the `PATCH /payments` handler
builds (`paidAt` is the wall-clock instant `new Date()`, modelled as a
number supplied to the operation). -/
structure Payment where
  amount : ℚ
  currency : String
  customerEmail : String
  parcelId : String
  parcelName : String
  paymentStatus : String
  paidAt : ℕ
  transactionId : String
  trackingId : String
  deriving DecidableEq, Repr

/-- A Stripe checkout session as the handler reads it back
(`stripe.checkout.sessions.retrieve`): payment status, total amount in
minor units, currency, customer email, the metadata the server attached at
creation, and the payment intent id. -/
structure Session where
  payment_status : String
  amount_total : ℚ
  currency : String
  customer_email : String
  metaParcelId : String
  metaParcelName : String
  payment_intent : String
  deriving DecidableEq, Repr

/-- The persistent state touched by the payment workflow: the `parcels`
and `payments` collections. -/
structure DB where
  parcels : List Parcel
  payments : List Payment
  deriving DecidableEq, Repr

/-- `updateOne`: apply `g` to the first element satisfying `f`, leave the
rest unchanged (MongoDB `updateOne` updates a single matching document). -/
def updateFirst (f : α → Bool) (g : α → α) : List α → List α
  | [] => []
  | x :: xs => if f x then g x :: xs else x :: updateFirst f g xs

/-- Modelled adapter behaviour: the MongoDB driver's `new ObjectId(s)`
accepts a 24-character hex string and throws otherwise. -/
def isValidObjectId (s : String) : Bool :=
  s.length == 24 && s.toList.all fun c => c.isDigit || ("abcdefABCDEF".toList.contains c)

/-- Result of the `PATCH /payments` handler: a JSON payment record
(`res.json(existingPayment)` / `res.json(payment)`), the non-paid result
`{success:false}`, or the 500 error response from the `catch` block. -/
inductive SettleResult where
  | payment (p : Payment)
  | notPaid
  | error
  deriving DecidableEq, Repr

/-- The filter `{parcelId: session.metadata.parcelId}` used against the
payments collection. -/
def byParcelId (pid : String) (p : Payment) : Bool :=
  p.parcelId == pid

/-- The filter `{_id: new ObjectId(pid)}` used against the parcels
collection; ObjectId equality is hex-string equality in this model. -/
def byMongoId (pid : String) (p : Parcel) : Bool :=
  p._id == pid

/-- The `$set {paymentStatus: "paid", trackingId}` patch applied to the
matched parcel. -/
def markPaid (trackingId : String) (p : Parcel) : Parcel :=
  { p with paymentStatus := "paid", trackingId := some trackingId }

/-- The `payment` object the `PATCH /payments` handler constructs from
the retrieved session before the idempotency check. -/
def paymentDoc (session : Session) (trackingId : String) (now : ℕ) :
    Payment :=
  { amount := session.amount_total / 100
    currency := session.currency
    customerEmail := session.customer_email
    parcelId := session.metaParcelId
    parcelName := session.metaParcelName
    paymentStatus := session.payment_status
    paidAt := now
    transactionId := session.payment_intent
    trackingId := trackingId }

/-- The `PATCH /payments?sessionId=` handler body, after the session has
been retrieved from Stripe.  `trackingId` is the value of
`generateTrackingId()` for this invocation and `now` the timestamp
`new Date()`.  Returns the response and the new store state. -/
def settleCheckout (session : Session) (trackingId : String) (now : ℕ)
    (db : DB) : SettleResult × DB :=
  let paid := session.payment_status == "paid"
  let payment := paymentDoc session trackingId now
  match db.payments.find? (byParcelId session.metaParcelId) with
  | some existingPayment => (.payment existingPayment, db)
  | none =>
      if paid then
        if isValidObjectId session.metaParcelId then
          let parcels :=
            updateFirst (byMongoId session.metaParcelId)
              (markPaid trackingId) db.parcels
          (.payment payment,
           { parcels := parcels, payments := db.payments ++ [payment] })
        else
          (.error, db)
      else
        (.notPaid, db)

/-- One call of the settlement workflow: the session retrieved for the
submitted sessionId, the generated tracking id, and the timestamp. -/
structure SettleCall where
  session : Session
  trackingId : String
  now : ℕ
  deriving Repr

/-- Run a sequence of sequential `PATCH /payments` calls, threading the
store state. -/
def runSettles (calls : List SettleCall) (db : DB) : DB :=
  calls.foldl (fun s c => (settleCheckout c.session c.trackingId c.now s).2) db

/-- Number of payment documents referencing a given parcelId. -/
def countFor (pid : String) (db : DB) : ℕ :=
  (db.payments.filter (byParcelId pid)).length

/-- `findOne` on the payments collection with the `{parcelId: pid}`
filter, as the idempotency check performs it. -/
def paymentFor (pid : String) (db : DB) : Option Payment :=
  db.payments.find? (byParcelId pid)

/-- `findOne` on the parcels collection with the `{_id: ObjectId(pid)}`
filter. -/
def parcelFor (pid : String) (db : DB) : Option Parcel :=
  db.parcels.find? (byMongoId pid)

/-- The reconciliation invariant for one parcelId: either no payment
document references it and the parcel (when looked up) is still
`unpaid`, or some payment document references it and the parcel is
`paid`. -/
def PaidInSync (P : String) (db : DB) : Prop :=
  (paymentFor P db = none
     ∧ ∃ p, parcelFor P db = some p ∧ p.paymentStatus = "unpaid")
  ∨ ((∃ q, paymentFor P db = some q)
     ∧ ∃ p, parcelFor P db = some p ∧ p.paymentStatus = "paid")

/-- One Stripe line item as the `POST /payments` handler builds it. -/
structure LineItem where
  currency : String
  unit_amount : ℚ
  productName : String
  quantity : ℕ
  deriving DecidableEq, Repr

/-- The argument the `POST /payments` handler passes to
`stripe.checkout.sessions.create` (the env-derived success/cancel redirect
URLs are external configuration and carry no workflow state). -/
structure CheckoutParams where
  line_items : List LineItem
  mode : String
  metaParcelId : String
  metaParcelName : String
  customer_email : String
  deriving DecidableEq, Repr

/-- The request body of `POST /payments`: the parcel reference the client
submits (id, name, sender email, charge in source-currency units). -/
structure ParcelInput where
  _id : String
  parcelName : String
  senderEmail : String
  charge : ℚ
  deriving DecidableEq, Repr

/-- The `POST /payments` handler body: currency conversion
(`Math.ceil(charge / 110)`, then `* 100` minor units) and the session
creation parameters sent to the provider. -/
def initiateCheckout (parcel : ParcelInput) : CheckoutParams :=
  let bdtAmount := parcel.charge
  let usdAmount : ℤ := ⌈bdtAmount / 110⌉
  let amount : ℚ := (usdAmount : ℚ) * 100
  { line_items := [{ currency := "usd"
                     unit_amount := amount
                     productName := parcel.parcelName
                     quantity := 1 }]
    mode := "payment"
    metaParcelId := parcel._id
    metaParcelName := parcel.parcelName
    customer_email := parcel.senderEmail }

/-- Response of an owner-scoped GET listing endpoint: the 403
`{message: "Forbidden Access"}` rejection or a JSON array of records. -/
inductive GetResult (α : Type) where
  | forbidden
  | ok (records : List α)
  deriving DecidableEq, Repr

/-- The `GET /payments` handler after `verifyFirebaseToken`.
`authEmail` is `req.headers.email` as set by the middleware (`none` when
the verified token carries no email), `customerEmail` the query parameter
(`none` when absent or empty, i.e. falsy).  The guard compares
`query.customerEmail !== req.headers.email` before any store access; the
second component counts the store queries executed.  The store adapter's
sort is presentational and out of scope; records keep store order. -/
def getPayments (authEmail : Option String) (customerEmail : Option String)
    (db : DB) : GetResult Payment × ℕ :=
  let queryEmail := customerEmail
  if queryEmail ≠ authEmail then
    (.forbidden, 0)
  else
    let records := match queryEmail with
      | none => db.payments
      | some e => db.payments.filter fun p => p.customerEmail == e
    (.ok records, 1)

/-- The `GET /parcels` handler after `verifyFirebaseToken`; identical
shape to `GET /payments` with the `senderEmail` owner filter. -/
def getParcels (authEmail : Option String) (senderEmail : Option String)
    (db : DB) : GetResult Parcel × ℕ :=
  let queryEmail := senderEmail
  if queryEmail ≠ authEmail then
    (.forbidden, 0)
  else
    let records := match queryEmail with
      | none => db.parcels
      | some e => db.parcels.filter fun p => p.senderEmail == e
    (.ok records, 1)

/-! Concrete inputs used to exercise the definitions. -/

/-- A well-formed 24-hex-character parcel ObjectId. -/
def pid24 : String := "665f1b2c3d4e5f6071829aaa"

/-- A retrieved session in the `paid` state for parcel `pid24`
(`amount_total` as Stripe reports it for the 2200-unit charge). -/
def sPaidEx : Session :=
  { payment_status := "paid"
    amount_total := 2000
    currency := "usd"
    customer_email := "a@x.com"
    metaParcelId := pid24
    metaParcelName := "Box"
    payment_intent := "pi_1" }

/-- The same session while still `open` (not paid). -/
def sOpenEx : Session := { sPaidEx with payment_status := "open" }

/-- A paid session whose metadata carries an invalid ObjectId string. -/
def sBadIdEx : Session := { sPaidEx with metaParcelId := "P1" }

/-- An unpaid parcel document with id `pid24`. -/
def parcelEx : Parcel :=
  { _id := pid24
    parcelName := "Box"
    senderEmail := "a@x.com"
    charge := 2200
    paymentStatus := "unpaid"
    trackingId := none }

/-- Store state holding the unpaid parcel and no payments. -/
def dbEx : DB := { parcels := [parcelEx], payments := [] }

/-- A payment document already referencing `pid24`. -/
def paymentEx : Payment :=
  { amount := 20
    currency := "usd"
    customerEmail := "a@x.com"
    parcelId := pid24
    parcelName := "Box"
    paymentStatus := "paid"
    paidAt := 1
    transactionId := "pi_1"
    trackingId := "TRK1" }

/-- The parcel after a successful settlement. -/
def parcelPaidEx : Parcel :=
  { parcelEx with paymentStatus := "paid", trackingId := some "TRK1" }

/-- Store state in which `pid24` has already been settled. -/
def dbPaidEx : DB := { parcels := [parcelPaidEx], payments := [paymentEx] }

/-- The spec's concrete `POST /payments` request body, parameterised by
the charge. -/
def boxIn (c : ℚ) : ParcelInput :=
  { _id := "P1", parcelName := "Box", senderEmail := "a@x.com", charge := c }

/-- The line item the provider receives for the 2200-unit charge. -/
def liEx : LineItem :=
  { currency := "usd", unit_amount := 2000, productName := "Box",
    quantity := 1 }

/-! Basic lemmas about the handler's branches. -/

/-- If the idempotency lookup finds a payment, the handler returns it
and leaves the store untouched. -/
theorem settle_existing (s : Session) (t : String) (n : ℕ) (db : DB)
    (q : Payment) (h : paymentFor s.metaParcelId db = some q) :
    settleCheckout s t n db = (.payment q, db) := by
  unfold settleCheckout
  rw [show db.payments.find? (byParcelId s.metaParcelId) = some q from h]

/-- If no payment exists, the session is paid and its parcelId is a
valid ObjectId, the handler updates the matched parcel and appends the
constructed payment document. -/
theorem settle_paid_insert (s : Session) (t : String) (n : ℕ) (db : DB)
    (hnone : paymentFor s.metaParcelId db = none)
    (hpaid : s.payment_status = "paid")
    (hvalid : isValidObjectId s.metaParcelId = true) :
    settleCheckout s t n db =
      (.payment (paymentDoc s t n),
       { parcels := updateFirst (byMongoId s.metaParcelId) (markPaid t)
                      db.parcels
         payments := db.payments ++ [paymentDoc s t n] }) := by
  unfold settleCheckout
  rw [show db.payments.find? (byParcelId s.metaParcelId) = none from hnone]
  simp [hpaid, hvalid]

/-- If no payment exists and the session is not paid, the handler
returns `{success:false}` and leaves the store untouched. -/
theorem settle_notPaid (s : Session) (t : String) (n : ℕ) (db : DB)
    (hnone : paymentFor s.metaParcelId db = none)
    (hnp : s.payment_status ≠ "paid") :
    settleCheckout s t n db = (.notPaid, db) := by
  unfold settleCheckout
  rw [show db.payments.find? (byParcelId s.metaParcelId) = none from hnone]
  simp [hnp]

/-- If no payment exists, the session is paid but its parcelId is not a
valid ObjectId, the constructor throws: 500 error, store untouched. -/
theorem settle_invalid (s : Session) (t : String) (n : ℕ) (db : DB)
    (hnone : paymentFor s.metaParcelId db = none)
    (hpaid : s.payment_status = "paid")
    (hinv : isValidObjectId s.metaParcelId = false) :
    settleCheckout s t n db = (.error, db) := by
  unfold settleCheckout
  rw [show db.payments.find? (byParcelId s.metaParcelId) = none from hnone]
  simp [hpaid, hinv]

/-! Lemmas about the store-level list operations. -/

/-- The `$set` patch does not change the document id. -/
theorem markPaid_id (t : String) (p : Parcel) :
    (markPaid t p)._id = p._id := rfl

/-- Looking up parcel `P` after `updateOne` on parcel `q`: the lookup is
unchanged unless `q = P`, in which case the found document carries the
patch. -/
theorem find?_updateFirst_markPaid (P q t : String) (l : List Parcel) :
    (updateFirst (byMongoId q) (markPaid t) l).find? (byMongoId P)
      = if q = P then (l.find? (byMongoId P)).map (markPaid t)
        else l.find? (byMongoId P) := by
  induction l with
  | nil => simp [updateFirst]
  | cons x xs ih =>
    by_cases hx : byMongoId q x = true
    · have hxq : x._id = q := by simpa [byMongoId] using hx
      rw [show updateFirst (byMongoId q) (markPaid t) (x :: xs)
            = markPaid t x :: xs by simp [updateFirst, hx]]
      by_cases hq : q = P
      · subst hq
        rw [List.find?_cons_of_pos xs
              (by simp [byMongoId, markPaid, hxq]),
            List.find?_cons_of_pos xs (by simp [byMongoId, hxq])]
        simp
      · have hxP : ¬ byMongoId P x = true := by
          simp only [byMongoId, beq_iff_eq]
          exact fun h => hq (hxq.symm.trans h)
        have hxP' : ¬ byMongoId P (markPaid t x) = true := by
          simpa [byMongoId, markPaid] using hxP
        rw [List.find?_cons_of_neg xs hxP',
            List.find?_cons_of_neg xs hxP]
        simp [hq]
    · rw [show updateFirst (byMongoId q) (markPaid t) (x :: xs)
            = x :: updateFirst (byMongoId q) (markPaid t) xs by
              simp [updateFirst, hx]]
      by_cases hxP : byMongoId P x = true
      · have hq : ¬ q = P := by
          intro h
          exact hx (h ▸ hxP)
        rw [List.find?_cons_of_pos _ hxP, List.find?_cons_of_pos _ hxP]
        simp [hq]
      · rw [List.find?_cons_of_neg _ hxP, List.find?_cons_of_neg _ hxP]
        exact ih

/-- The handler's payment document references the session's parcelId. -/
theorem byParcelId_paymentDoc (s : Session) (t : String) (n : ℕ) :
    byParcelId s.metaParcelId (paymentDoc s t n) = true := by
  simp [byParcelId, paymentDoc]

/-- Looking up a parcelId after an insert: unchanged when the inserted
document references another parcelId; otherwise the lookup's result is
the previous one, falling back to the inserted document. -/
theorem find?_payments_append (pid : String) (l : List Payment)
    (q : Payment) :
    (l ++ [q]).find? (byParcelId pid)
      = (l.find? (byParcelId pid)).or
          (if byParcelId pid q then some q else none) := by
  rw [List.find?_append]
  by_cases hq : byParcelId pid q = true
  · rw [List.find?_cons_of_pos _ hq]
    simp [hq]
  · rw [List.find?_cons_of_neg _ hq]
    simp [hq]

/-- No payment document references `pid` exactly when the idempotency
lookup comes back empty. -/
theorem countFor_eq_zero (pid : String) (db : DB) :
    countFor pid db = 0 ↔ paymentFor pid db = none := by
  unfold countFor paymentFor
  rw [List.length_eq_zero, List.filter_eq_nil_iff, List.find?_eq_none]

/-- Appending one payment document changes the reference count for
`pid` by one exactly when the document references `pid`. -/
theorem countFor_append (pid : String) (parcels : List Parcel)
    (l : List Payment) (q : Payment) :
    countFor pid { parcels := parcels, payments := l ++ [q] }
      = countFor pid { parcels := parcels, payments := l }
        + (if byParcelId pid q then 1 else 0) := by
  unfold countFor
  rw [List.filter_append]
  by_cases hq : byParcelId pid q = true <;> simp [hq]

/-! Lemmas about repeated and sequential settlement. -/

/-- A second call for the same session returns the first call's result
and leaves the first call's store state untouched. -/
theorem settle_twice_second_noop (s : Session) (t₁ t₂ : String)
    (n₁ n₂ : ℕ) (db : DB) :
    settleCheckout s t₂ n₂ (settleCheckout s t₁ n₁ db).2
      = ((settleCheckout s t₁ n₁ db).1, (settleCheckout s t₁ n₁ db).2) := by
  cases hfind : paymentFor s.metaParcelId db with
  | some q =>
    rw [settle_existing s t₁ n₁ db q hfind]
    exact settle_existing s t₂ n₂ db q hfind
  | none =>
    by_cases hpaid : s.payment_status = "paid"
    · by_cases hvalid : isValidObjectId s.metaParcelId = true
      · rw [settle_paid_insert s t₁ n₁ db hfind hpaid hvalid]
        apply settle_existing
        unfold paymentFor
        rw [find?_payments_append]
        unfold paymentFor at hfind
        rw [hfind]
        simp [byParcelId_paymentDoc]
      · have hinv : isValidObjectId s.metaParcelId = false :=
          Bool.eq_false_iff.mpr hvalid
        rw [settle_invalid s t₁ n₁ db hfind hpaid hinv]
        exact settle_invalid s t₂ n₂ db hfind hpaid hinv
    · rw [settle_notPaid s t₁ n₁ db hfind hpaid]
      exact settle_notPaid s t₂ n₂ db hfind hpaid

/-- `countFor` reads only the payments collection. -/
theorem countFor_def (pid : String) (db : DB) :
    countFor pid db = (db.payments.filter (byParcelId pid)).length := rfl

/-- Payments component of the successful settlement branch. -/
theorem settle_paid_payments (s : Session) (t : String) (n : ℕ)
    (db : DB) (hnone : paymentFor s.metaParcelId db = none)
    (hpaid : s.payment_status = "paid")
    (hvalid : isValidObjectId s.metaParcelId = true) :
    (settleCheckout s t n db).2.payments
      = db.payments ++ [paymentDoc s t n] := by
  rw [settle_paid_insert s t n db hnone hpaid hvalid]

/-- Parcels component of the successful settlement branch. -/
theorem settle_paid_parcels (s : Session) (t : String) (n : ℕ)
    (db : DB) (hnone : paymentFor s.metaParcelId db = none)
    (hpaid : s.payment_status = "paid")
    (hvalid : isValidObjectId s.metaParcelId = true) :
    (settleCheckout s t n db).2.parcels
      = updateFirst (byMongoId s.metaParcelId) (markPaid t) db.parcels := by
  rw [settle_paid_insert s t n db hnone hpaid hvalid]

/-- Response component of the successful settlement branch. -/
theorem settle_paid_fst (s : Session) (t : String) (n : ℕ)
    (db : DB) (hnone : paymentFor s.metaParcelId db = none)
    (hpaid : s.payment_status = "paid")
    (hvalid : isValidObjectId s.metaParcelId = true) :
    (settleCheckout s t n db).1 = .payment (paymentDoc s t n) := by
  rw [settle_paid_insert s t n db hnone hpaid hvalid]

/-- One settlement call preserves the at-most-one-payment bound for
every parcelId. -/
theorem countFor_settle_le (s : Session) (t : String) (n : ℕ) (db : DB)
    (pid : String) (h : countFor pid db ≤ 1) :
    countFor pid (settleCheckout s t n db).2 ≤ 1 := by
  cases hfind : paymentFor s.metaParcelId db with
  | some q =>
    rw [settle_existing s t n db q hfind]
    exact h
  | none =>
    by_cases hpaid : s.payment_status = "paid"
    · by_cases hvalid : isValidObjectId s.metaParcelId = true
      · rw [countFor_def,
            settle_paid_payments s t n db hfind hpaid hvalid,
            List.filter_append, List.length_append]
        by_cases hq : byParcelId pid (paymentDoc s t n) = true
        · have hpid : pid = s.metaParcelId := by
            have hq' := hq
            simp only [byParcelId, paymentDoc, beq_iff_eq] at hq'
            exact hq'.symm
          have hzero : (db.payments.filter (byParcelId pid)).length = 0 := by
            have hz : countFor pid db = 0 := by
              rw [countFor_eq_zero, hpid]
              exact hfind
            exact hz
          rw [hzero]
          simp [hq, List.filter]
        · have hz : (List.filter (byParcelId pid) [paymentDoc s t n]).length
              = 0 := by
            simp [List.filter, hq]
          rw [hz]
          have hle : (db.payments.filter (byParcelId pid)).length ≤ 1 := h
          omega
      · have hinv : isValidObjectId s.metaParcelId = false :=
          Bool.eq_false_iff.mpr hvalid
        rw [settle_invalid s t n db hfind hpaid hinv]
        exact h
    · rw [settle_notPaid s t n db hfind hpaid]
      exact h

/-- The at-most-one-payment bound is preserved by any sequence of
sequential settlement calls. -/
theorem countFor_runSettles_le (pid : String) (calls : List SettleCall)
    (db : DB) (h : countFor pid db ≤ 1) :
    countFor pid (runSettles calls db) ≤ 1 := by
  induction calls generalizing db with
  | nil => exact h
  | cons c cs ih =>
    rw [show runSettles (c :: cs) db
          = runSettles cs (settleCheckout c.session c.trackingId c.now db).2
        from rfl]
    exact ih _ (countFor_settle_le c.session c.trackingId c.now db pid h)

/-- One settlement call preserves the reconciliation invariant for
every parcelId. -/
theorem paidInSync_settle (P : String) (s : Session) (t : String)
    (n : ℕ) (db : DB) (h : PaidInSync P db) :
    PaidInSync P (settleCheckout s t n db).2 := by
  cases hfind : paymentFor s.metaParcelId db with
  | some q =>
    rw [settle_existing s t n db q hfind]
    exact h
  | none =>
    by_cases hpaid : s.payment_status = "paid"
    · by_cases hvalid : isValidObjectId s.metaParcelId = true
      · by_cases hP : s.metaParcelId = P
        · rcases h with ⟨hq, p, hp, hup⟩ | ⟨⟨q, hq⟩, _⟩
          · right
            constructor
            · refine ⟨paymentDoc s t n, ?_⟩
              unfold paymentFor
              rw [settle_paid_payments s t n db hfind hpaid hvalid,
                  find?_payments_append]
              have hq' : db.payments.find? (byParcelId P) = none := hq
              rw [hq']
              have hdoc : byParcelId P (paymentDoc s t n) = true := by
                rw [← hP]
                exact byParcelId_paymentDoc s t n
              simp [hdoc]
            · refine ⟨markPaid t p, ?_, rfl⟩
              unfold parcelFor
              rw [settle_paid_parcels s t n db hfind hpaid hvalid,
                  find?_updateFirst_markPaid, if_pos hP]
              unfold parcelFor at hp
              rw [hp]
              rfl
          · exfalso
            rw [hP] at hfind
            rw [hfind] at hq
            exact Option.noConfusion hq
        · have hpay : paymentFor P (settleCheckout s t n db).2
              = paymentFor P db := by
            unfold paymentFor
            rw [settle_paid_payments s t n db hfind hpaid hvalid,
                find?_payments_append]
            have hdoc : ¬ byParcelId P (paymentDoc s t n) = true := by
              simp only [byParcelId, paymentDoc, beq_iff_eq]
              exact fun hc => hP hc
            simp [hdoc]
          have hpar : parcelFor P (settleCheckout s t n db).2
              = parcelFor P db := by
            unfold parcelFor
            rw [settle_paid_parcels s t n db hfind hpaid hvalid,
                find?_updateFirst_markPaid, if_neg hP]
          unfold PaidInSync
          rw [hpay, hpar]
          exact h
      · have hinv : isValidObjectId s.metaParcelId = false :=
          Bool.eq_false_iff.mpr hvalid
        rw [settle_invalid s t n db hfind hpaid hinv]
        exact h
    · rw [settle_notPaid s t n db hfind hpaid]
      exact h

/-- The reconciliation invariant is preserved by any sequence of
sequential settlement calls. -/
theorem paidInSync_runSettles (P : String) (calls : List SettleCall)
    (db : DB) (h : PaidInSync P db) :
    PaidInSync P (runSettles calls db) := by
  induction calls generalizing db with
  | nil => exact h
  | cons c cs ih =>
    rw [show runSettles (c :: cs) db
          = runSettles cs (settleCheckout c.session c.trackingId c.now db).2
        from rfl]
    exact ih _ (paidInSync_settle P c.session c.trackingId c.now db h)

/-! Claim theorems. -/

/-- C1 counterexample: for a sessionId whose session is not paid, two
sequential SettleCheckout calls yield `{success:false}` both times — no
Payment record at all — and zero Payment documents exist afterwards for
the session's parcelId, not exactly one. -/
theorem settle_c1_counterexample :
    (settleCheckout sOpenEx "T1" 1 dbEx).1 = .notPaid
    ∧ (settleCheckout sOpenEx "T2" 2
         (settleCheckout sOpenEx "T1" 1 dbEx).2).1 = .notPaid
    ∧ countFor pid24 (settleCheckout sOpenEx "T2" 2
        (settleCheckout sOpenEx "T1" 1 dbEx).2).2 = 0 := by
  decide

/-- C1 (amended): a second SettleCheckout call for the same session
returns the first call's result and performs no further writes; when
additionally the session is paid, its parcelId a valid ObjectId and no
Payment yet references it, both calls yield the same Payment record and
exactly one Payment document for that parcelId exists afterwards; and
for any parcelId the at-most-one-Payment bound is preserved by any
sequence of sequential SettleCheckout calls. -/
theorem settle_c1_exactly_once (s : Session) (t₁ t₂ : String)
    (n₁ n₂ : ℕ) (db : DB) (pid : String) (calls : List SettleCall) :
    (settleCheckout s t₂ n₂ (settleCheckout s t₁ n₁ db).2
       = ((settleCheckout s t₁ n₁ db).1, (settleCheckout s t₁ n₁ db).2))
    ∧ (s.payment_status = "paid" → isValidObjectId s.metaParcelId = true →
         countFor s.metaParcelId db = 0 →
         (settleCheckout s t₁ n₁ db).1 = .payment (paymentDoc s t₁ n₁)
         ∧ (settleCheckout s t₂ n₂ (settleCheckout s t₁ n₁ db).2).1
             = .payment (paymentDoc s t₁ n₁)
         ∧ countFor s.metaParcelId
             (settleCheckout s t₂ n₂ (settleCheckout s t₁ n₁ db).2).2 = 1)
    ∧ (countFor pid db ≤ 1 → countFor pid (runSettles calls db) ≤ 1) := by
  refine ⟨settle_twice_second_noop s t₁ t₂ n₁ n₂ db, ?_,
    countFor_runSettles_le pid calls db⟩
  intro hpaid hvalid hzero
  have hnone : paymentFor s.metaParcelId db = none :=
    (countFor_eq_zero _ db).mp hzero
  have hnoop := settle_twice_second_noop s t₁ t₂ n₁ n₂ db
  refine ⟨settle_paid_fst s t₁ n₁ db hnone hpaid hvalid, ?_, ?_⟩
  · rw [hnoop]
    exact settle_paid_fst s t₁ n₁ db hnone hpaid hvalid
  · rw [hnoop]
    show countFor s.metaParcelId (settleCheckout s t₁ n₁ db).2 = 1
    rw [countFor_def, settle_paid_payments s t₁ n₁ db hnone hpaid hvalid,
        List.filter_append, List.length_append]
    have hz : (db.payments.filter (byParcelId s.metaParcelId)).length
        = 0 := hzero
    rw [hz]
    simp [List.filter, byParcelId_paymentDoc s t₁ n₁]

/-- C1 witness: a concrete paid session settled twice on a fresh store
yields the payment document twice and exactly one stored copy. -/
theorem settle_c1_exactly_once_witness :
    (settleCheckout sPaidEx "T1" 1 dbEx).1
        = .payment (paymentDoc sPaidEx "T1" 1)
    ∧ (settleCheckout sPaidEx "T2" 2
         (settleCheckout sPaidEx "T1" 1 dbEx).2).1
        = .payment (paymentDoc sPaidEx "T1" 1)
    ∧ countFor pid24 (settleCheckout sPaidEx "T2" 2
        (settleCheckout sPaidEx "T1" 1 dbEx).2).2 = 1
    ∧ countFor pid24 (runSettles [] dbEx) ≤ 1 := by
  have h := settle_c1_exactly_once sPaidEx "T1" "T2" 1 2 dbEx pid24 []
  have h2 := h.2.1 rfl (by decide) (by decide)
  exact ⟨h2.1, h2.2.1, h2.2.2, h.2.2 (by decide)⟩

/-- C2: starting from a parcel in state `unpaid` with no Payment record
referencing it, after any sequence of sequential SettleCheckout calls a
Payment record with its parcelId exists iff the parcel's paymentStatus
is `paid`. -/
theorem settle_c2_payment_iff_paid (P : String) (db : DB)
    (calls : List SettleCall) (p0 : Parcel)
    (hp : parcelFor P db = some p0) (hst : p0.paymentStatus = "unpaid")
    (hq : paymentFor P db = none) :
    (∃ q ∈ (runSettles calls db).payments, q.parcelId = P)
      ↔ ∃ p, parcelFor P (runSettles calls db) = some p
              ∧ p.paymentStatus = "paid" := by
  have hinv : PaidInSync P db := Or.inl ⟨hq, p0, hp, hst⟩
  have hinv' := paidInSync_runSettles P calls db hinv
  constructor
  · rintro ⟨q, hqmem, hqid⟩
    rcases hinv' with ⟨hnone, -⟩ | ⟨-, p, hp', hps⟩
    · exfalso
      rw [paymentFor, List.find?_eq_none] at hnone
      exact hnone q hqmem (by simp [byParcelId, hqid])
    · exact ⟨p, hp', hps⟩
  · rintro ⟨p, hp', hps⟩
    rcases hinv' with ⟨-, p', hp'', hups⟩ | ⟨⟨q, hq'⟩, -⟩
    · exfalso
      rw [hp'] at hp''
      injection hp'' with he
      rw [← he, hps] at hups
      exact absurd hups (by decide)
    · rw [paymentFor] at hq'
      refine ⟨q, List.mem_of_find?_eq_some hq', ?_⟩
      have hq'' := List.find?_some hq'
      simpa [byParcelId] using hq''

/-- C2 witness: one paid settlement on the concrete fresh store. -/
theorem settle_c2_payment_iff_paid_witness :
    (∃ q ∈ (runSettles [⟨sPaidEx, "T1", 1⟩] dbEx).payments,
        q.parcelId = pid24)
      ↔ ∃ p, parcelFor pid24 (runSettles [⟨sPaidEx, "T1", 1⟩] dbEx)
               = some p ∧ p.paymentStatus = "paid" :=
  settle_c2_payment_iff_paid pid24 dbEx [⟨sPaidEx, "T1", 1⟩] parcelEx
    (by decide) (by decide) (by decide)

/-- C3: when the retrieved session is paid, no Payment references its
parcelId and the parcelId is a well-formed ObjectId, SettleCheckout
updates the matched parcel (paymentStatus `paid`, the fresh tracking id)
and appends exactly one Payment record with the settlement amount,
currency, customer email, parcelId, parcel name, payment status, paid
timestamp, transactionId = session.payment_intent and the same tracking
id. -/
theorem settle_c3_paid_settlement (s : Session) (t : String) (n : ℕ)
    (db : DB) (p0 : Parcel)
    (hpaid : s.payment_status = "paid")
    (hnone : paymentFor s.metaParcelId db = none)
    (hvalid : isValidObjectId s.metaParcelId = true)
    (hparcel : parcelFor s.metaParcelId db = some p0) :
    (settleCheckout s t n db).1
        = .payment { amount := s.amount_total / 100,
                     currency := s.currency,
                     customerEmail := s.customer_email,
                     parcelId := s.metaParcelId,
                     parcelName := s.metaParcelName,
                     paymentStatus := "paid",
                     paidAt := n,
                     transactionId := s.payment_intent,
                     trackingId := t }
    ∧ (settleCheckout s t n db).2.payments
        = db.payments ++ [paymentDoc s t n]
    ∧ parcelFor s.metaParcelId (settleCheckout s t n db).2
        = some { p0 with paymentStatus := "paid", trackingId := some t } := by
  refine ⟨?_, settle_paid_payments s t n db hnone hpaid hvalid, ?_⟩
  · rw [settle_paid_fst s t n db hnone hpaid hvalid]
    simp [paymentDoc, hpaid]
  · rw [parcelFor, settle_paid_parcels s t n db hnone hpaid hvalid,
        find?_updateFirst_markPaid, if_pos rfl]
    rw [parcelFor] at hparcel
    rw [hparcel]
    rfl

/-- C3 witness: the concrete paid session settles the concrete parcel. -/
theorem settle_c3_paid_settlement_witness :
    (settleCheckout sPaidEx "T1" 1 dbEx).1
        = .payment { amount := sPaidEx.amount_total / 100,
                     currency := sPaidEx.currency,
                     customerEmail := sPaidEx.customer_email,
                     parcelId := sPaidEx.metaParcelId,
                     parcelName := sPaidEx.metaParcelName,
                     paymentStatus := "paid",
                     paidAt := 1,
                     transactionId := sPaidEx.payment_intent,
                     trackingId := "T1" }
    ∧ (settleCheckout sPaidEx "T1" 1 dbEx).2.payments
        = dbEx.payments ++ [paymentDoc sPaidEx "T1" 1]
    ∧ parcelFor sPaidEx.metaParcelId (settleCheckout sPaidEx "T1" 1 dbEx).2
        = some { parcelEx with paymentStatus := "paid",
                               trackingId := some "T1" } :=
  settle_c3_paid_settlement sPaidEx "T1" 1 dbEx parcelEx rfl (by decide)
    (by decide) (by decide)

/-- C4: a SettleCheckout call on a non-paid session with no existing
Payment for its parcelId creates nothing, mutates nothing and returns
`{success:false}`; and no call — whatever its session — moves any
parcel out of the `paid` state. -/
theorem settle_c4_unpaid_stable (s : Session) (t : String) (n : ℕ)
    (db : DB) :
    (s.payment_status ≠ "paid" → paymentFor s.metaParcelId db = none →
       settleCheckout s t n db = (.notPaid, db))
    ∧ (∀ P p, parcelFor P db = some p → p.paymentStatus = "paid" →
         ∃ p', parcelFor P (settleCheckout s t n db).2 = some p'
               ∧ p'.paymentStatus = "paid") := by
  constructor
  · intro hnp hnone
    exact settle_notPaid s t n db hnone hnp
  · intro P p hp hps
    cases hfind : paymentFor s.metaParcelId db with
    | some q =>
      rw [settle_existing s t n db q hfind]
      exact ⟨p, hp, hps⟩
    | none =>
      by_cases hpaid : s.payment_status = "paid"
      · by_cases hvalid : isValidObjectId s.metaParcelId = true
        · by_cases hP : s.metaParcelId = P
          · refine ⟨markPaid t p, ?_, rfl⟩
            rw [parcelFor, settle_paid_parcels s t n db hfind hpaid hvalid,
                find?_updateFirst_markPaid, if_pos hP]
            rw [parcelFor] at hp
            rw [hp]
            rfl
          · refine ⟨p, ?_, hps⟩
            rw [parcelFor, settle_paid_parcels s t n db hfind hpaid hvalid,
                find?_updateFirst_markPaid, if_neg hP]
            exact hp
        · rw [settle_invalid s t n db hfind hpaid
              (Bool.eq_false_iff.mpr hvalid)]
          exact ⟨p, hp, hps⟩
      · rw [settle_notPaid s t n db hfind hpaid]
        exact ⟨p, hp, hps⟩

/-- C4 witness: the concrete open session leaves the fresh store alone,
and a concrete settled parcel stays `paid` across a further call. -/
theorem settle_c4_unpaid_stable_witness :
    settleCheckout sOpenEx "T1" 1 dbEx = (.notPaid, dbEx)
    ∧ ∃ p', parcelFor pid24 (settleCheckout sOpenEx "T9" 9 dbPaidEx).2
              = some p' ∧ p'.paymentStatus = "paid" :=
  ⟨(settle_c4_unpaid_stable sOpenEx "T1" 1 dbEx).1 (by decide) (by decide),
   (settle_c4_unpaid_stable sOpenEx "T9" 9 dbPaidEx).2 pid24 parcelPaidEx
     (by decide) rfl⟩

/-- C5: for every parcel with charge `c`, InitiateCheckout sends the
provider a single `usd` line item of unit amount `⌈c / 110⌉ * 100` with
the parcel's name, quantity 1, mode `payment`, the parcelId/parcelName
metadata and the sender's email as customer email; charge 1100 yields
settlement amount 10 and minor amount 1000, and charge 2200 yields unit
amount 2000. -/
theorem initiateCheckout_c5_conversion (parcel : ParcelInput) :
    initiateCheckout parcel
      = { line_items := [{ currency := "usd",
                           unit_amount := ((⌈parcel.charge / 110⌉ : ℤ) : ℚ)
                             * 100,
                           productName := parcel.parcelName,
                           quantity := 1 }],
          mode := "payment",
          metaParcelId := parcel._id,
          metaParcelName := parcel.parcelName,
          customer_email := parcel.senderEmail }
    ∧ (⌈(1100 : ℚ) / 110⌉ : ℤ) = 10
    ∧ (initiateCheckout (boxIn 1100)).line_items
        = [{ currency := "usd", unit_amount := 1000,
             productName := "Box", quantity := 1 }]
    ∧ initiateCheckout (boxIn 2200)
        = { line_items := [liEx],
            mode := "payment",
            metaParcelId := "P1",
            metaParcelName := "Box",
            customer_email := "a@x.com" } := by
  refine ⟨rfl, by norm_num, ?_, ?_⟩
  · simp only [initiateCheckout, boxIn]
    norm_num
  · simp only [initiateCheckout, boxIn, liEx]
    norm_num

/-- C6 counterexample: with a non-empty store, an authenticated request
with no owner filter is rejected with 403 and zero executed queries on
both listing endpoints — it does not return all records. -/
theorem get_c6_counterexample :
    getPayments (some "a@x.com") none dbPaidEx = (.forbidden, 0)
    ∧ getPayments (some "a@x.com") none dbPaidEx
        ≠ (.ok dbPaidEx.payments, 1)
    ∧ getParcels (some "a@x.com") none dbPaidEx = (.forbidden, 0)
    ∧ getParcels (some "a@x.com") none dbPaidEx
        ≠ (.ok dbPaidEx.parcels, 1) := by
  decide

/-- C6 (amended): for every authenticated GET to an owner-scoped
listing endpoint in which no owner filter parameter is supplied and the
authenticated token carries an email, the request is rejected with 403
(Forbidden) before any store query; the outcome is independent of which
authenticated email made the request. -/
theorem get_c6_noFilter_forbidden (e e' : String) (db db' : DB) :
    getPayments (some e) none db = (.forbidden, 0)
    ∧ getParcels (some e) none db = (.forbidden, 0)
    ∧ getPayments (some e) none db = getPayments (some e') none db'
    ∧ getParcels (some e) none db = getParcels (some e') none db' := by
  refine ⟨?_, ?_, ?_, ?_⟩ <;> simp [getPayments, getParcels]

/-- C7: a GET /payments request whose customerEmail filter differs from
the authenticated email is rejected with the ownership-mismatch 403 and
executes no store query. -/
theorem getPayments_c7_owner_mismatch (a b : String) (db : DB)
    (h : b ≠ a) :
    getPayments (some a) (some b) db = (.forbidden, 0) := by
  rw [getPayments, if_pos (by simpa using h)]

/-- C7 witness: the spec's concrete access-control scenario. -/
theorem getPayments_c7_owner_mismatch_witness :
    getPayments (some "a@x.com") (some "b@x.com") dbPaidEx
      = (.forbidden, 0) :=
  getPayments_c7_owner_mismatch "a@x.com" "b@x.com" dbPaidEx (by decide)

/-- C8: when a Payment already references the session's parcelId,
SettleCheckout returns that record and writes nothing, whatever the
session's payment status (the existence check precedes the paid
check). -/
theorem settle_c8_existing_short_circuit (s : Session) (t : String)
    (n : ℕ) (db : DB) (q : Payment)
    (h : paymentFor s.metaParcelId db = some q) :
    settleCheckout s t n db = (.payment q, db) :=
  settle_existing s t n db q h

/-- C8 witness: a non-paid session with an existing payment record
still returns that record unchanged. -/
theorem settle_c8_existing_short_circuit_witness :
    settleCheckout sOpenEx "T3" 3 dbPaidEx = (.payment paymentEx, dbPaidEx) :=
  settle_c8_existing_short_circuit sOpenEx "T3" 3 dbPaidEx paymentEx
    (by decide)

/-- C9: a paid session with no existing payment whose parcelId is not a
valid ObjectId makes the handler throw before either write: 500 error
response, store unchanged. -/
theorem settle_c9_invalid_objectid (s : Session) (t : String) (n : ℕ)
    (db : DB)
    (hpaid : s.payment_status = "paid")
    (hnone : paymentFor s.metaParcelId db = none)
    (hinv : isValidObjectId s.metaParcelId = false) :
    settleCheckout s t n db = (.error, db) :=
  settle_invalid s t n db hnone hpaid hinv

/-- C9 witness: parcelId "P1" is not a 24-hex ObjectId. -/
theorem settle_c9_invalid_objectid_witness :
    settleCheckout sBadIdEx "T1" 1 dbEx = (.error, dbEx) :=
  settle_c9_invalid_objectid sBadIdEx "T1" 1 dbEx rfl rfl (by decide)

/-- C10: InitiateCheckout sends unit amount `⌈c / 110⌉ * 100`; a
settling session whose amount_total equals that unit amount is recorded
with Payment.amount = amount_total / 100 = `⌈c / 110⌉`, the
settlement-currency amount. -/
theorem amount_c10_roundtrip (parcel : ParcelInput) (s : Session)
    (t : String) (n : ℕ) (db : DB) (li : LineItem)
    (hli : (initiateCheckout parcel).line_items = [li])
    (hamt : s.amount_total = li.unit_amount)
    (hpaid : s.payment_status = "paid")
    (hnone : paymentFor s.metaParcelId db = none)
    (hvalid : isValidObjectId s.metaParcelId = true) :
    li.unit_amount = ((⌈parcel.charge / 110⌉ : ℤ) : ℚ) * 100
    ∧ (settleCheckout s t n db).2.payments
        = db.payments ++ [paymentDoc s t n]
    ∧ (paymentDoc s t n).amount = ((⌈parcel.charge / 110⌉ : ℤ) : ℚ) := by
  have hli2 : li = { currency := "usd",
                     unit_amount := ((⌈parcel.charge / 110⌉ : ℤ) : ℚ) * 100,
                     productName := parcel.parcelName,
                     quantity := 1 } := by
    have h0 : ([li] : List LineItem)
        = [{ currency := "usd",
             unit_amount := ((⌈parcel.charge / 110⌉ : ℤ) : ℚ) * 100,
             productName := parcel.parcelName,
             quantity := 1 }] := by
      rw [← hli]
      rfl
    simpa using h0
  refine ⟨by rw [hli2], settle_paid_payments s t n db hnone hpaid hvalid, ?_⟩
  show s.amount_total / 100 = ((⌈parcel.charge / 110⌉ : ℤ) : ℚ)
  rw [hamt, hli2]
  exact mul_div_cancel_right₀ _ (by norm_num)

/-- C10 witness: charge 2200 sends unit amount 2000 and is stored as
settlement amount 20. -/
theorem amount_c10_roundtrip_witness :
    ((2000 : ℚ) = ((⌈(2200 : ℚ) / 110⌉ : ℤ) : ℚ) * 100)
    ∧ (settleCheckout sPaidEx "T1" 1 dbEx).2.payments
        = dbEx.payments ++ [paymentDoc sPaidEx "T1" 1]
    ∧ (paymentDoc sPaidEx "T1" 1).amount
        = ((⌈(2200 : ℚ) / 110⌉ : ℤ) : ℚ) :=
  amount_c10_roundtrip (boxIn 2200) sPaidEx "T1" 1 dbEx liEx
    (by simp only [initiateCheckout, boxIn, liEx]; norm_num)
    rfl rfl (by decide) (by decide)

end ZapShift
